import Mathlib

/-!
Shallow embedding of the StreamVibe backend (Express + Mongoose request
handlers) and verification of the specification's claims about its
access-control, engagement-ledger and notification logic.

Conventions of the embedding:
* Mongoose ObjectIds are modelled as `String` with value equality.
* JavaScript truthiness of optional numbers/strings is modelled explicitly
  (`none` and `0`/`""` are falsy).
* Each request handler becomes a pure function from the acting user, its
  parameters and a database snapshot to a response paired with the new
  database snapshot.  `Date.now()` and freshly generated ids are passed in
  as explicit arguments.
-/

namespace StreamVibe

/-- JS `String.prototype.includes`: substring containment (the empty string
is contained in every string). -/
def jsIncludesStr (s sub : String) : Bool :=
  s.data.tails.any (fun t => sub.data.isPrefixOf t)

/-- JS `input || old` on an optional numeric input: `undefined` and `0` are
falsy and keep `old`; any other number replaces it. -/
def jsOrNum (input : Option Nat) (old : Nat) : Nat :=
  match input with
  | some k => if k == 0 then old else k
  | none => old

/-- JS truthiness of an optional string (`undefined` and `""` are falsy). -/
def jsTruthyStrOpt (o : Option String) : Bool :=
  match o with
  | some s => !s.isEmpty
  | none => false

/-- JS `String.prototype.split(' ')` on the character list: splitting on a
single space, keeping empty fields (`"a  b"` gives `["a", "", "b"]`, `""`
gives `[""]`). -/
def splitCharsOnSpace : List Char → List (List Char)
  | [] => [[]]
  | c :: cs =>
    let r := splitCharsOnSpace cs
    if c == ' ' then [] :: r
    else
      match r with
      | [] => [[c]]
      | h :: t => (c :: h) :: t

/-- JS `String.prototype.split(' ')`. -/
def jsSplitOnSpace (s : String) : List String :=
  (splitCharsOnSpace s.data).map (fun l => String.mk l)

/-- JS `String.prototype.startsWith`. -/
def jsStartsWith (s pre : String) : Bool :=
  pre.data.isPrefixOf s.data

/-- Replace the first element satisfying `p` by its image under `f`
(Mongoose `document.save()` after mutating a document found by a unique
query). -/
def updateFirst (p : α → Bool) (f : α → α) : List α → List α
  | [] => []
  | x :: xs => if p x then f x :: xs else x :: updateFirst p f xs

/-- A principal (models/User.js: UserSchema).  `department` is only
meaningful for teachers, `branch`/`year` for students. -/
structure User where
  id : String
  name : String
  email : String
  role : String
  branch : String
  department : String
  year : String
  isApproved : Bool
  deriving Repr, DecidableEq

/-- A video (models/Video.js: VideoSchema).  Note that the schema defines
no approval/publish flag. -/
structure Video where
  id : String
  title : String
  description : String
  videoUrl : String
  subject : String
  topic : String
  branch : String
  year : String
  teacher : String
  specialAccess : List String
  views : Nat
  deriving Repr, DecidableEq

/-- A Like row (models/Like.js), unique per (video, user). -/
structure LikeRow where
  video : String
  user : String
  deriving Repr, DecidableEq

/-- A view row (models/VideoView.js), unique per (video, user). -/
structure ViewRow where
  video : String
  user : String
  watchedAt : Nat
  watchTime : Nat
  completionPercentage : Nat
  lastPosition : Nat
  deriving Repr, DecidableEq

/-- A comment (CommentSchema); `parentComment = none` means top-level. -/
structure Comment where
  id : String
  content : String
  user : String
  video : String
  parentComment : Option String
  deriving Repr, DecidableEq

/-- A report on a comment (models/Report.js), unique per (comment, user). -/
structure Report where
  id : String
  comment : String
  user : String
  reason : String
  details : Option String
  status : String
  deriving Repr, DecidableEq

/-- A notification row (NotificationSchema).  The source stores the type
tag in a field named `type`; it is called `ntype` here because `type` is a
Lean keyword. -/
structure NotificationRow where
  recipient : String
  sender : Option String
  ntype : String
  title : String
  message : String
  deriving Repr, DecidableEq

/-- A note (NoteSchema); `video = none` means a standalone note. -/
structure NoteRow where
  id : String
  title : String
  content : String
  student : String
  video : Option String
  timestamp : Nat
  createdAt : Nat
  updatedAt : Nat
  deriving Repr, DecidableEq

/-- A notice (models/Notice.js). -/
structure NoticeRow where
  id : String
  title : String
  content : String
  category : String
  branch : String
  year : String
  priority : String
  expirationType : String
  expirationDate : Option Nat
  expirationDuration : Option String
  teacher : String
  isActive : Bool
  deriving Repr, DecidableEq

/-- The database snapshot: one list per Mongo collection. -/
structure DB where
  users : List User
  videos : List Video
  likes : List LikeRow
  videoViews : List ViewRow
  comments : List Comment
  reports : List Report
  notes : List NoteRow
  notices : List NoticeRow
  notifications : List NotificationRow
  deriving Repr, DecidableEq

/-- An HTTP handler response: `res.status(s).json({success:true, data})` or
`res.status(s).json({success:false, error})`. -/
inductive Resp (α : Type) where
  | ok (status : Nat) (data : α)
  | err (status : Nat) (error : String)
  deriving Repr, DecidableEq

def studentKw : String := "student"
def adminKw : String := "admin"
def allKw : String := "All"
def pendingKw : String := "pending"
def reviewedKw : String := "reviewed"
def ignoredKw : String := "ignored"
def otherKw : String := "other"
def likeKw : String := "like"
def noticePostedKw : String := "notice_posted"
def bearerKw : String := "Bearer"
def dateKw : String := "date"
def durationKw : String := "duration"
def untitledNoteTitle : String := "Untitled Note"
def newLikeTitle : String := "New Like"
def videoNotFoundMsg : String := "Video not found"
def commentNotFoundMsg : String := "Comment not found"
def reportNotFoundMsg : String := "Report not found"
def userNotFoundMsg : String := "User not found"
def noAccessMsg : String := "You do not have access to this video"
def notAuthorizedMsg : String := "Not authorized"
def notAuthorizedRouteMsg : String := "Not authorized to access this route"
def pendingApprovalMsg : String := "Your account is pending approval. Please wait for admin approval."
def videoIdRequiredMsg : String := "VideoId is required"
def titleRequiredMsg : String := "Title is required for standalone notes"
def provideCommentReasonMsg : String := "Please provide comment ID and reason"
def selfReportMsg : String := "You cannot report your own comment"
def alreadyReportedMsg : String := "You have already reported this comment"
def invalidStatusMsg : String := "Invalid status value"
def provideAllFieldsMsg : String := "Please provide all required fields"
def selectSpecificMsg : String := "Please select specific branch and year"
def roleMsgPre : String := "User role "
def roleMsgPost : String := " is not authorized to access this route"
def validationFailedMsg : String := "Validation failed"
def likedYourVideoPre : String := " liked your video \""
def quoteStr : String := "\""

/-- Student access check of `getVideo` (videoController, src/unnamed/part_002
lines 322-352): `branchMatch = String(video.branch) === String(req.user.branch)`,
`yearMatch = String(video.year) === String(req.user.year)`,
`hasSpecialAccess = video.specialAccess.some(id => id.toString() === req.user._id.toString())`,
`hasAccess = (branchMatch && yearMatch) || hasSpecialAccess`. -/
def getVideoStudentHasAccess (video : Video) (user : User) : Bool :=
  let branchMatch := video.branch == user.branch
  let yearMatch := video.year == user.year
  let hasSpecialAccess := video.specialAccess.any (fun i => i == user.id)
  (branchMatch && yearMatch) || hasSpecialAccess

/-- `video.isApproved` as read by likeController and noteController: the
VideoSchema (models/Video.js) defines no `isApproved` path, so on every
Video document this property is `undefined`, which is falsy. -/
def videoIsApproved (_video : Video) : Bool := false

/-- Student access check of `toggleLike` / `getLikes` (likeController,
src/unnamed/part_000 lines 20-33): `video.isApproved &&
(video.branch.includes(req.user.branch) && video.year.includes(req.user.year)) ||
video.specialAccess.includes(req.user._id)`.  JS `&&` binds tighter than
`||`, and `.includes` on the String fields `branch`/`year` is substring
containment. -/
def toggleLikeStudentHasAccess (video : Video) (user : User) : Bool :=
  videoIsApproved video &&
    (jsIncludesStr video.branch user.branch && jsIncludesStr video.year user.year)
  || video.specialAccess.contains user.id

/-- The spec's ContentItem visibility formula (§3), stated from the spec's
words for comparison with the source's checks: `(approved/published) AND
((scope.branch matches or scope.branch == "All") AND (scope.year matches or
scope.year == "All")) OR (principal id ∈ allow-list)`.  The approval flag
has no counterpart in the Video schema, so it is an explicit argument. -/
def specStudentCanView (approved : Bool) (video : Video) (user : User) : Bool :=
  (approved &&
    ((video.branch == user.branch || video.branch == allKw) &&
     (video.year == user.year || video.year == allKw)))
  || video.specialAccess.contains user.id

/-- Match a Like row against the unique (video, user) key. -/
def likePred (videoId userId : String) (l : LikeRow) : Bool :=
  l.video == videoId && l.user == userId

/-- `toggleLike` (likeController, src/unnamed/part_000 lines 8-81): find the
video, apply the student access check, then toggle the Like row for
(video, user); on like, notify the owning teacher unless they are the
liker. -/
def toggleLike (user : User) (videoId : String) (db : DB) : Resp Bool × DB :=
  match db.videos.find? (fun v => v.id == videoId) with
  | none => (Resp.err 404 videoNotFoundMsg, db)
  | some video =>
    if user.role == studentKw && !(toggleLikeStudentHasAccess video user) then
      (Resp.err 403 noAccessMsg, db)
    else
      match db.likes.find? (likePred videoId user.id) with
      | some _ =>
        (Resp.ok 200 false, { db with likes := db.likes.eraseP (likePred videoId user.id) })
      | none =>
        let newNotifs : List NotificationRow :=
          if video.teacher != user.id then
            [{ recipient := video.teacher, sender := some user.id, ntype := likeKw,
               title := newLikeTitle,
               message := user.name ++ likedYourVideoPre ++ video.title ++ quoteStr }]
          else []
        (Resp.ok 200 true,
         { db with likes := db.likes ++ [{ video := videoId, user := user.id }],
                   notifications := db.notifications ++ newNotifs })

/-- Match a view row against the unique (video, user) key. -/
def viewPred (videoId userId : String) (v : ViewRow) : Bool :=
  v.video == videoId && v.user == userId

/-- The watch-metric inputs of `recordView` (`req.body`); `none` models an
absent field. -/
structure ViewInput where
  watchTime : Option Nat
  completionPercentage : Option Nat
  lastPosition : Option Nat
  deriving Repr, DecidableEq

/-- Update of an existing view row in `recordView`:
`view.watchTime = watchTime || view.watchTime` (and likewise for the other
two metrics), `view.watchedAt = Date.now()`. -/
def viewUpdate (inp : ViewInput) (now : Nat) (v : ViewRow) : ViewRow :=
  { v with
    watchTime := jsOrNum inp.watchTime v.watchTime
    completionPercentage := jsOrNum inp.completionPercentage v.completionPercentage
    lastPosition := jsOrNum inp.lastPosition v.lastPosition
    watchedAt := now }

/-- `Video.findByIdAndUpdate(videoId, { $inc: { views: 1 } })`: add one to
the `views` counter of the video with the given id (a no-op when no such
video exists). -/
def incViews (videoId : String) (l : List Video) : List Video :=
  l.map (fun v => if v.id == videoId then { v with views := v.views + 1 } else v)

/-- `recordView` (controllers/viewController.js lines 7-58): upsert the
(video, user) view row; only the create branch increments the video's
`views` counter (`Video.findByIdAndUpdate(videoId, { $inc: { views: 1 } })`). -/
def recordView (user : User) (videoId : String) (inp : ViewInput) (now : Nat)
    (db : DB) : Resp ViewRow × DB :=
  if videoId.isEmpty then
    (Resp.err 400 videoIdRequiredMsg, db)
  else
    match db.videoViews.find? (viewPred videoId user.id) with
    | some view =>
      (Resp.ok 200 (viewUpdate inp now view),
       { db with videoViews :=
           (updateFirst (viewPred videoId user.id) (viewUpdate inp now) db.videoViews) })
    | none =>
      let view : ViewRow :=
        { video := videoId, user := user.id, watchedAt := now,
          watchTime := jsOrNum inp.watchTime 0,
          completionPercentage := jsOrNum inp.completionPercentage 0,
          lastPosition := jsOrNum inp.lastPosition 0 }
      (Resp.ok 200 view,
       { db with
           videoViews := db.videoViews ++ [view],
           videos := incViews videoId db.videos })

/-- The request body of `createNote`. -/
structure NoteBody where
  content : String
  videoId : Option String
  timestamp : Option Nat
  title : Option String
  deriving Repr, DecidableEq

/-- Access check of `createNote` (controllers/noteController.js lines
46-58): `video.isApproved && ((video.branch === req.user.branch) &&
(video.year === req.user.year)) || (Array.isArray(video.specialAccess) &&
video.specialAccess.includes(req.user._id)) || true` — the trailing
`|| true` is the source's "TEMPORARY" testing override. -/
def createNoteHasAccess (video : Video) (user : User) : Bool :=
  (videoIsApproved video && ((video.branch == user.branch) && (video.year == user.year))
   || video.specialAccess.contains user.id)
  || true

/-- Match a note against the unique query `{ student, video: videoId }` of
`createNote`. -/
def notePred (studentId vid : String) (n : NoteRow) : Bool :=
  n.student == studentId && n.video == some vid

/-- Update of an existing note in `createNote`: `note.content = content`,
`note.timestamp = timestamp || note.timestamp`, `note.updatedAt =
Date.now()`. -/
def noteUpdate (body : NoteBody) (now : Nat) (n : NoteRow) : NoteRow :=
  { n with content := body.content,
           timestamp := jsOrNum body.timestamp n.timestamp,
           updatedAt := now }

/-- `createNote` (controllers/noteController.js lines 7-111): standalone
path when `videoId` is falsy (title required), otherwise the video-linked
path with the access check above and per-(student, video) upsert. -/
def createNote (user : User) (body : NoteBody) (now : Nat) (freshId : String)
    (db : DB) : Resp NoteRow × DB :=
  if !(jsTruthyStrOpt body.videoId) then
    if !(jsTruthyStrOpt body.title) then
      (Resp.err 400 titleRequiredMsg, db)
    else
      let note : NoteRow :=
        { id := freshId, title := body.title.getD untitledNoteTitle,
          content := body.content, student := user.id, video := none,
          timestamp := 0, createdAt := now, updatedAt := now }
      (Resp.ok 201 note, { db with notes := db.notes ++ [note] })
  else
    match db.videos.find? (fun v => v.id == body.videoId.getD "") with
    | none => (Resp.err 404 videoNotFoundMsg, db)
    | some video =>
      if !(createNoteHasAccess video user) then
        (Resp.err 403 noAccessMsg, db)
      else
        match db.notes.find? (notePred user.id (body.videoId.getD "")) with
        | some note =>
          (Resp.ok 201 (noteUpdate body now note),
           { db with notes :=
               (updateFirst (notePred user.id (body.videoId.getD ""))
                 (noteUpdate body now) db.notes) })
        | none =>
          let note : NoteRow :=
            { id := freshId, title := untitledNoteTitle, content := body.content,
              student := user.id, video := some (body.videoId.getD ""),
              timestamp := jsOrNum body.timestamp 0, createdAt := now, updatedAt := now }
          (Resp.ok 201 note, { db with notes := db.notes ++ [note] })

/-- `deleteComment` (commentController, src/unnamed/part_002 lines
1716-1739): author-or-admin authorization; when the target is top-level,
`Comment.deleteMany({ parentComment: comment._id })` precedes
`Comment.findByIdAndDelete(req.params.id)`. -/
def deleteComment (user : User) (commentId : String) (db : DB) : Resp Unit × DB :=
  match db.comments.find? (fun c => c.id == commentId) with
  | none => (Resp.err 404 commentNotFoundMsg, db)
  | some comment =>
    if comment.user != user.id && user.role != adminKw then
      (Resp.err 403 notAuthorizedMsg, db)
    else
      let afterCascade :=
        if comment.parentComment.isNone then
          db.comments.filter (fun c => !(c.parentComment == some comment.id))
        else db.comments
      (Resp.ok 200 (),
       { db with comments := afterCascade.eraseP (fun c => c.id == commentId) })

/-- Mongoose validation run by `Report.create`: `reason` must be one of the
schema's enum values and `details` is required iff `reason === 'other'`. -/
def reportValid (reason : String) (details : Option String) : Bool :=
  ["spam", "harassment", "off-topic", "inappropriate", "other"].contains reason &&
  (reason != otherKw || (match details with | some d => !d.isEmpty | none => false))

/-- `createReport` (controllers/reportController.js lines 7-67): input
validation, comment existence, self-report rejection, duplicate-report
rejection, then `Report.create` with `details` only kept for reason
`other` and default status `pending`. -/
def createReport (user : User) (commentId reason : String) (details : Option String)
    (freshId : String) (db : DB) : Resp Report × DB :=
  if commentId.isEmpty || reason.isEmpty then
    (Resp.err 400 provideCommentReasonMsg, db)
  else
    match db.comments.find? (fun c => c.id == commentId) with
    | none => (Resp.err 404 commentNotFoundMsg, db)
    | some comment =>
      if comment.user == user.id then
        (Resp.err 400 selfReportMsg, db)
      else
        match db.reports.find? (fun r => r.comment == commentId && r.user == user.id) with
        | some _ => (Resp.err 400 alreadyReportedMsg, db)
        | none =>
          let details' := if reason == otherKw then details else none
          if reportValid reason details' then
            let report : Report :=
              { id := freshId, comment := commentId, user := user.id,
                reason := reason, details := details', status := pendingKw }
            (Resp.ok 201 report, { db with reports := db.reports ++ [report] })
          else
            (Resp.err 500 validationFailedMsg, db)

/-- `updateReportStatus` (controllers/reportController.js lines 136-170):
reject a status outside the enum, otherwise
`Report.findByIdAndUpdate(req.params.id, { status }, ...)` — no condition
whatsoever on the report's current status. -/
def updateReportStatus (reportId status : String) (db : DB) : Resp Report × DB :=
  if !([pendingKw, reviewedKw, ignoredKw].contains status) then
    (Resp.err 400 invalidStatusMsg, db)
  else
    match db.reports.find? (fun r => r.id == reportId) with
    | none => (Resp.err 404 reportNotFoundMsg, db)
    | some r =>
      (Resp.ok 200 { r with status := status },
       { db with reports :=
           (updateFirst (fun x => x.id == reportId) (fun x => { x with status := status })
             db.reports) })

/-- Route `PUT /api/reports/:id` = `protect, authorize('admin'),
updateReportStatus` (routes/reportRoutes.js); `user` is the principal
already resolved by `protect`, and `authorize` rejects non-admins. -/
def updateReportStatusRoute (user : User) (reportId status : String) (db : DB) :
    Resp Report × DB :=
  if user.role != adminKw then
    (Resp.err 403 (roleMsgPre ++ user.role ++ roleMsgPost), db)
  else updateReportStatus reportId status db

/-- `cancelReport` (controllers/reportController.js lines 245-275): find
the calling user's own report on the comment and
`Report.findByIdAndDelete(report._id)` — no condition on its status. -/
def cancelReport (user : User) (commentId : String) (db : DB) : Resp Unit × DB :=
  match db.reports.find? (fun r => r.comment == commentId && r.user == user.id) with
  | none => (Resp.err 404 reportNotFoundMsg, db)
  | some report =>
    (Resp.ok 200 (), { db with reports := db.reports.eraseP (fun r => r.id == report.id) })

/-- The request body of `createNotice`. -/
structure NoticeBody where
  title : String
  content : String
  category : String
  branch : String
  year : String
  priority : String
  expirationType : String
  expirationDate : Option Nat
  expirationDuration : Option String
  deriving Repr, DecidableEq

/-- The handler's own required-field check (`!title || !content || ...`);
`""` models a missing/falsy body field. -/
def noticeFieldsPresent (b : NoticeBody) : Bool :=
  !(b.title.isEmpty || b.content.isEmpty || b.category.isEmpty || b.branch.isEmpty ||
    b.year.isEmpty || b.priority.isEmpty || b.expirationType.isEmpty)

/-- Mongoose validation run by `Notice.create` (models/Notice.js enums and
conditional requirements on the expiration subdocument). -/
def noticeValid (b : NoticeBody) : Bool :=
  ["General", "Academic", "Event", "Important", "Other"].contains b.category &&
  ["CSE", "CSE-AI", "CSE-SF", "ECE", "EE", "ME", "CE"].contains b.branch &&
  ["1st", "2nd", "3rd", "4th"].contains b.year &&
  ["low", "normal", "high"].contains b.priority &&
  ((b.expirationType == dateKw && b.expirationDate.isSome) ||
   (b.expirationType == durationKw &&
    (match b.expirationDuration with
     | some d => ["3 days", "7 days", "14 days", "30 days", "3 months", "6 months",
                  "1 year", "never"].contains d
     | none => false)))

/-- `createNotice` (controllers/authController.js lines 347-419): field
validation, rejection of `branch === 'All' || year === 'All'`, then
`Notice.create`.  The attachment-upload branch is not modelled (requests
without files, `req.files` empty).  A Mongoose validation failure is
caught and surfaced as a 500 with the error message, abstracted here to a
fixed string.  No notification of any kind is created on this path. -/
def createNotice (user : User) (body : NoticeBody) (freshId : String) (db : DB) :
    Resp NoticeRow × DB :=
  if !(noticeFieldsPresent body) then
    (Resp.err 400 provideAllFieldsMsg, db)
  else if body.branch == allKw || body.year == allKw then
    (Resp.err 400 selectSpecificMsg, db)
  else if !(noticeValid body) then
    (Resp.err 500 validationFailedMsg, db)
  else
    let notice : NoticeRow :=
      { id := freshId, title := body.title, content := body.content,
        category := body.category, branch := body.branch, year := body.year,
        priority := body.priority, expirationType := body.expirationType,
        expirationDate := if body.expirationType == dateKw then body.expirationDate else none,
        expirationDuration :=
          if body.expirationType == dateKw then none else body.expirationDuration,
        teacher := user.id, isActive := true }
    (Resp.ok 201 notice, { db with notices := db.notices ++ [notice] })

/-- Outcome of the `protect` middleware: either a rejection response or the
resolved `req.user`. -/
inductive AuthOutcome where
  | denied (status : Nat) (error : String)
  | allowed (user : User)
  deriving Repr, DecidableEq

/-- `protect` (middleware/auth.js lines 5-75): extract the bearer token
from the Authorization header, verify it (`verify` models
`jwt.verify(token, secret)`, returning the decoded principal id or `none`
when verification throws), re-read the principal from the database, and
reject with 403 when its current `isApproved` flag is false. -/
def protect (authHeader : Option String) (verify : String → Option String) (db : DB) :
    AuthOutcome :=
  let token : Option String :=
    match authHeader with
    | some h => if jsStartsWith h bearerKw then (jsSplitOnSpace h)[1]? else none
    | none => none
  if !(jsTruthyStrOpt token) then
    AuthOutcome.denied 401 notAuthorizedRouteMsg
  else
    match verify (token.getD "") with
    | none => AuthOutcome.denied 401 notAuthorizedRouteMsg
    | some decodedId =>
      match db.users.find? (fun u => u.id == decodedId) with
      | none => AuthOutcome.denied 401 userNotFoundMsg
      | some user =>
        if !user.isApproved then
          AuthOutcome.denied 403 pendingApprovalMsg
        else
          AuthOutcome.allowed user

/-- The `views` counter of the video with the given id in a videos
collection (0 if absent). -/
def viewsOfList (videoId : String) (l : List Video) : Nat :=
  match l.find? (fun v => v.id == videoId) with
  | some v => v.views
  | none => 0

/-- The `views` counter of the video with the given id (0 if absent). -/
def viewsOf (videoId : String) (db : DB) : Nat :=
  viewsOfList videoId db.videos

/-- The status of the report with the given id, if it exists. -/
def statusOfReport (reportId : String) (db : DB) : Option String :=
  (db.reports.find? (fun r => r.id == reportId)).map (fun r => r.status)

/-! ## General helper lemmas -/

theorem eraseP_append_left_neg {p : α → Bool} {l₁ : List α}
    (h : ∀ x ∈ l₁, p x = false) (l₂ : List α) :
    (l₁ ++ l₂).eraseP p = l₁ ++ l₂.eraseP p := by
  induction l₁ with
  | nil => simp
  | cons x xs ih =>
    have hx : p x = false := h x (List.mem_cons_self x xs)
    simp [List.eraseP_cons, hx, ih (fun y hy => h y (List.mem_cons_of_mem x hy))]

theorem countP_eraseP_of_le_one {p : α → Bool} {l : List α}
    (h : l.countP p ≤ 1) : (l.eraseP p).countP p = 0 := by
  induction l with
  | nil => simp
  | cons x xs ih =>
    by_cases hx : p x = true
    · have h' := h
      rw [List.countP_cons, if_pos hx] at h'
      have hz : xs.countP p = 0 := by omega
      simp [List.eraseP_cons, hx, hz]
    · have hx' : p x = false := by simpa using hx
      have hle : xs.countP p ≤ 1 := by
        have := h
        rw [List.countP_cons] at this
        simpa [hx'] using this
      simp [List.eraseP_cons, hx', List.countP_cons, ih hle]

theorem countP_key_le_one {f : α → String} {k : String} {l : List α}
    (h : (l.map f).Nodup) : l.countP (fun x => f x == k) ≤ 1 := by
  induction l with
  | nil => simp
  | cons x xs ih =>
    rw [List.map_cons, List.nodup_cons] at h
    by_cases hx : f x = k
    · have hz : xs.countP (fun y => f y == k) = 0 := by
        rw [List.countP_eq_zero]
        intro a ha
        have : f a ≠ f x := fun hc => h.1 (hc ▸ List.mem_map_of_mem f ha)
        simp [hx ▸ this]
      rw [List.countP_cons]
      simp [hx, hz]
    · rw [List.countP_cons]
      simp [hx, ih h.2]

theorem find?_updateFirst {p : α → Bool} {f : α → α} {l : List α}
    (hf : ∀ a, p a = true → p (f a) = true) :
    (updateFirst p f l).find? p = (l.find? p).map f := by
  induction l with
  | nil => rfl
  | cons x xs ih =>
    by_cases hx : p x = true
    · simp [updateFirst, hx, List.find?_cons_of_pos, hf x hx]
    · have hx' : p x = false := by simpa using hx
      simp [updateFirst, hx', List.find?_cons_of_neg, ih]

theorem updateFirst_eq_of_forall_neg {p : α → Bool} {f : α → α} {l : List α}
    (h : ∀ x ∈ l, p x = false) : updateFirst p f l = l := by
  induction l with
  | nil => rfl
  | cons x xs ih =>
    simp [updateFirst, h x (List.mem_cons_self x xs),
      ih (fun y hy => h y (List.mem_cons_of_mem x hy))]

/-! ## Claim C1 — the student access decision versus the spec's
visibility formula -/

/-- The student used in the C1 and C2 counterexample/witness states. -/
def c1student : User :=
  { id := "s1", name := "Stu Dent", email := "stu@example.com", role := studentKw,
    branch := "CSE", department := "", year := "2nd", isApproved := true }

/-- A video whose branch scope is the wildcard `"All"`: under the spec's
formula the CSE student may view it, under `getVideo`'s check they may
not. -/
def c1video : Video :=
  { id := "v1", title := "Lecture 1", description := "d", videoUrl := "url1",
    subject := "Math", topic := "Calculus", branch := allKw, year := "2nd",
    teacher := "t1", specialAccess := [], views := 0 }

/-- A video matching the student's cohort exactly: under the spec's formula
(approved, cohort match) the student may view it, but `toggleLike`'s check
still denies because `video.isApproved` is undefined on every Video
document. -/
def c1video2 : Video := { c1video with id := "v2", videoUrl := "url2", branch := "CSE" }

/-- C1: the claim states the student access decision grants access iff
`(approved AND (branch matches or "All") AND (year matches or "All")) OR
allow-list membership`.  False: `getVideo` uses exact equality with no
wildcard and no approval conjunct, so it denies the wildcard-branch video
`c1video` that the spec's formula grants; and `toggleLike`'s check denies
the exactly-matching approved video `c1video2` that the spec's formula
grants. -/
theorem claim_C1_counterexample :
    (specStudentCanView true c1video c1student = true ∧
      getVideoStudentHasAccess c1video c1student = false)
    ∧ (specStudentCanView true c1video2 c1student = true ∧
      toggleLikeStudentHasAccess c1video2 c1student = false) := by
  decide

/-- C1 (amended): for every student principal and video, `getVideo`'s
access decision grants access iff (the video's branch equals the student's
branch AND the video's year equals the student's year) OR the student's id
is in the video's specialAccess list — either disjunct alone suffices, and
no approval flag or "All" wildcard is involved; `toggleLike`'s access
check grants access iff the student is in the specialAccess list (its
cohort disjunct is conjoined with the always-undefined `video.isApproved`). -/
theorem claim_C1_amended (video : Video) (user : User) :
    (getVideoStudentHasAccess video user = true ↔
      ((video.branch = user.branch ∧ video.year = user.year) ∨
        user.id ∈ video.specialAccess))
    ∧ toggleLikeStudentHasAccess video user = video.specialAccess.contains user.id := by
  constructor
  · simp only [getVideoStudentHasAccess, Bool.or_eq_true, Bool.and_eq_true, beq_iff_eq,
      List.any_eq_true]
    constructor
    · rintro (⟨hb, hy⟩ | ⟨x, hx, hxy⟩)
      · exact Or.inl ⟨hb, hy⟩
      · exact Or.inr (hxy ▸ hx)
    · rintro (⟨hb, hy⟩ | hm)
      · exact Or.inl ⟨hb, hy⟩
      · exact Or.inr ⟨user.id, hm, rfl⟩
  · simp [toggleLikeStudentHasAccess, videoIsApproved]

/-! ## Claim C2 — the unconditional `true` override in createNote -/

/-- C2: in `createNote`'s video-linked path the access-check expression
ends in an unconditional `|| true`, so it evaluates to `true` for every
principal and video, and the 403 "You do not have access to this video"
branch is unreachable: no `createNote` invocation ever returns a 403. -/
theorem claim_C2 :
    (∀ (video : Video) (user : User), createNoteHasAccess video user = true)
    ∧ ∀ (user : User) (body : NoteBody) (now : Nat) (freshId : String) (db : DB)
        (msg : String), (createNote user body now freshId db).fst ≠ Resp.err 403 msg := by
  constructor
  · intro video user
    simp [createNoteHasAccess]
  · intro user body now freshId db msg
    unfold createNote
    split
    · split <;> simp
    · split
      · simp
      · rw [if_neg (by simp [createNoteHasAccess])]
        split <;> simp

/-! ## Claim C10 — protect re-reads the principal and gates on approval -/

/-- C10: for every request with a well-formed Bearer header whose token
verifies (valid signature, unexpired) to a principal id present in the
database, `protect` rejects the request with the 403 pending-approval
error whenever that principal's current `isApproved` flag is false — the
flag is re-read from the database on every request, so revoking approval
disables previously issued tokens. -/
theorem claim_C10 (h : String) (verify : String → Option String) (db : DB)
    (token decodedId : String) (user : User)
    (hb : jsStartsWith h bearerKw = true)
    (ht : (jsSplitOnSpace h)[1]? = some token)
    (htne : token.isEmpty = false)
    (hv : verify token = some decodedId)
    (hu : db.users.find? (fun u => u.id == decodedId) = some user)
    (ha : user.isApproved = false) :
    protect (some h) verify db = AuthOutcome.denied 403 pendingApprovalMsg := by
  unfold protect
  simp only [hb, if_true, ht, jsTruthyStrOpt, htne, Bool.not_false, if_pos, Option.getD_some,
    hv, hu, ha]
  rfl

/-- A database holding one unapproved teacher, for the C10 witness. -/
def c10db : DB :=
  { users := [{ id := "u1", name := "Tea Cher", email := "tea@example.com",
                role := "teacher", branch := "", department := "CSE", year := "",
                isApproved := false }],
    videos := [], likes := [], videoViews := [], comments := [], reports := [],
    notes := [], notices := [], notifications := [] }

def c10header : String := "Bearer tok123"

/-- A concrete stand-in for `jwt.verify`: the one issued token decodes to
the stored principal's id. -/
def c10verify : String → Option String :=
  fun t => if t == "tok123" then some "u1" else none

theorem claim_C10_witness :
    protect (some c10header) c10verify c10db = AuthOutcome.denied 403 pendingApprovalMsg :=
  claim_C10 c10header c10verify c10db "tok123" "u1"
    ((c10db.users.get ⟨0, by decide⟩))
    (by decide) (by decide) (by decide) (by decide) (by decide) (by decide)

/-! ## Claim C5 — recordView upsert preserves positive metrics on falsy
inputs -/

/-- C5: when a view row already exists for (principal, content), the
update written by `recordView` keeps each previously recorded metric
whenever the corresponding input is unset or zero, replaces it whenever
the input is non-zero, always refreshes the watched-at timestamp, and
changes nothing else; the updated row is both returned and stored. -/
theorem claim_C5 (user : User) (videoId : String) (inp : ViewInput) (now : Nat)
    (db : DB) (view : ViewRow)
    (hne : videoId.isEmpty = false)
    (hfind : db.videoViews.find? (viewPred videoId user.id) = some view) :
    (recordView user videoId inp now db).fst = Resp.ok 200 (viewUpdate inp now view)
    ∧ ((recordView user videoId inp now db).snd.videoViews.find?
        (viewPred videoId user.id) = some (viewUpdate inp now view))
    ∧ ((inp.watchTime = none ∨ inp.watchTime = some 0) →
        (viewUpdate inp now view).watchTime = view.watchTime)
    ∧ (∀ k, inp.watchTime = some k → k ≠ 0 → (viewUpdate inp now view).watchTime = k)
    ∧ ((inp.completionPercentage = none ∨ inp.completionPercentage = some 0) →
        (viewUpdate inp now view).completionPercentage = view.completionPercentage)
    ∧ (∀ k, inp.completionPercentage = some k → k ≠ 0 →
        (viewUpdate inp now view).completionPercentage = k)
    ∧ ((inp.lastPosition = none ∨ inp.lastPosition = some 0) →
        (viewUpdate inp now view).lastPosition = view.lastPosition)
    ∧ (∀ k, inp.lastPosition = some k → k ≠ 0 → (viewUpdate inp now view).lastPosition = k)
    ∧ (viewUpdate inp now view).watchedAt = now
    ∧ (viewUpdate inp now view).video = view.video
    ∧ (viewUpdate inp now view).user = view.user
    ∧ ((inp.watchTime = none ∨ inp.watchTime = some 0) →
       (inp.completionPercentage = none ∨ inp.completionPercentage = some 0) →
       (inp.lastPosition = none ∨ inp.lastPosition = some 0) →
        viewUpdate inp now view = { view with watchedAt := now }) := by
  have hup : ∀ a, viewPred videoId user.id a = true →
      viewPred videoId user.id (viewUpdate inp now a) = true := by
    intro a hpa
    simpa [viewPred, viewUpdate] using hpa
  refine ⟨?_, ?_, ?_, ?_, ?_, ?_, ?_, ?_, rfl, rfl, rfl, ?_⟩
  · unfold recordView
    rw [if_neg (by simp [hne]), hfind]
  · unfold recordView
    rw [if_neg (by simp [hne]), hfind]
    simpa using (find?_updateFirst hup).trans (by rw [hfind]; rfl)
  · rintro (hw | hw) <;> simp [viewUpdate, jsOrNum, hw]
  · intro k hk hk0
    simp [viewUpdate, jsOrNum, hk, hk0]
  · rintro (hw | hw) <;> simp [viewUpdate, jsOrNum, hw]
  · intro k hk hk0
    simp [viewUpdate, jsOrNum, hk, hk0]
  · rintro (hw | hw) <;> simp [viewUpdate, jsOrNum, hw]
  · intro k hk hk0
    simp [viewUpdate, jsOrNum, hk, hk0]
  · rintro (hw | hw) (hc | hc) (hl | hl) <;> simp [viewUpdate, jsOrNum, hw, hc, hl]

/-- The student acting in the C5 witness state. -/
def c5user : User :=
  { id := "s5", name := "Viewer", email := "v@example.com", role := studentKw,
    branch := "CSE", department := "", year := "3rd", isApproved := true }

/-- An existing view row with positive metrics. -/
def c5view : ViewRow :=
  { video := "v5", user := "s5", watchedAt := 50, watchTime := 120,
    completionPercentage := 40, lastPosition := 115 }

def c5db : DB :=
  { users := [c5user], videos := [], likes := [], videoViews := [c5view],
    comments := [], reports := [], notes := [], notices := [], notifications := [] }

/-- Witness for C5: a second `recordView` with all-falsy metric inputs
(unset, zero, unset) keeps the stored positive metrics and only refreshes
the timestamp. -/
theorem claim_C5_witness :
    (recordView c5user "v5" ⟨none, some 0, none⟩ 99 c5db).fst
      = Resp.ok 200 (viewUpdate ⟨none, some 0, none⟩ 99 c5view)
    ∧ viewUpdate ⟨none, some 0, none⟩ 99 c5view = { c5view with watchedAt := 99 } :=
  ⟨(claim_C5 c5user "v5" ⟨none, some 0, none⟩ 99 c5db c5view (by decide) (by decide)).1,
   (claim_C5 c5user "v5" ⟨none, some 0, none⟩ 99 c5db c5view (by decide)
      (by decide)).2.2.2.2.2.2.2.2.2.2.2 (Or.inl rfl) (Or.inr rfl) (Or.inl rfl)⟩

/-! ## Claim C8 — self-report and duplicate-report rejection -/

/-- C8: with the referenced comment present, `createReport` always fails
with the self-report error when the caller authored the comment (this
check runs first, so it fires even if a duplicate also exists), and fails
with the duplicate-report error when the caller already reported the
comment; in both cases the database — in particular the reports
collection — is left unchanged. -/
theorem claim_C8 (user : User) (commentId reason : String) (details : Option String)
    (freshId : String) (db : DB) (comment : Comment)
    (hne1 : commentId.isEmpty = false) (hne2 : reason.isEmpty = false)
    (hfind : db.comments.find? (fun c => c.id == commentId) = some comment) :
    (comment.user = user.id →
      createReport user commentId reason details freshId db = (Resp.err 400 selfReportMsg, db))
    ∧ (comment.user ≠ user.id →
       (db.reports.find? (fun r => r.comment == commentId && r.user == user.id)).isSome = true →
       createReport user commentId reason details freshId db
         = (Resp.err 400 alreadyReportedMsg, db)) := by
  constructor
  · intro hself
    unfold createReport
    rw [if_neg (by simp [hne1, hne2]), hfind]
    simp [hself]
  · intro hns hdup
    obtain ⟨r, hr⟩ := Option.isSome_iff_exists.mp hdup
    have hcu : (comment.user == user.id) = false := by simp [hns]
    unfold createReport
    rw [if_neg (by simp [hne1, hne2]), hfind, hr]
    simp [hcu]

/-- The reporter in the C8 witness state. -/
def c8user : User :=
  { id := "s8", name := "Reporter", email := "r@example.com", role := studentKw,
    branch := "ECE", department := "", year := "1st", isApproved := true }

/-- A comment authored by the reporter themself. -/
def c8comment : Comment :=
  { id := "c8", content := "first!", user := "s8", video := "v8", parentComment := none }

def c8db : DB :=
  { users := [c8user], videos := [], likes := [], videoViews := [],
    comments := [c8comment], reports := [], notes := [], notices := [],
    notifications := [] }

/-- Witness for C8: reporting one's own comment is rejected with the
self-report error and creates no Report row. -/
theorem claim_C8_witness :
    createReport c8user "c8" "spam" none "fresh1" c8db = (Resp.err 400 selfReportMsg, c8db) :=
  (claim_C8 c8user "c8" "spam" none "fresh1" c8db c8comment
      (by decide) (by decide) (by decide)).1 rfl

/-! ## Claim C7 — the Report status "state machine" -/

/-- The admin acting in the C7 counterexample and witness. -/
def c7admin : User :=
  { id := "a1", name := "Ad Min", email := "admin@example.com", role := adminKw,
    branch := "", department := "", year := "", isApproved := true }

/-- A report that has already been reviewed. -/
def c7report : Report :=
  { id := "r1", comment := "c1", user := "s1", reason := "spam", details := none,
    status := reviewedKw }

def c7db : DB :=
  { users := [c7admin], videos := [], likes := [], videoViews := [], comments := [],
    reports := [c7report], notes := [], notices := [], notifications := [] }

/-- C7: the claim states a Report's status only ever transitions
`pending -> reviewed` or `pending -> ignored`, with no transition out of
`reviewed`/`ignored` other than deletion by the reporter's cancellation.
False: `updateReportStatus` writes any enum status regardless of the
current one, so an admin moves a `reviewed` report back to `pending` —
a transition out of `reviewed` that is not a cancellation (the report row
survives). -/
theorem claim_C7_counterexample :
    statusOfReport "r1" c7db = some reviewedKw
    ∧ (updateReportStatusRoute c7admin "r1" pendingKw c7db).fst
        = Resp.ok 200 { c7report with status := pendingKw }
    ∧ statusOfReport "r1" (updateReportStatusRoute c7admin "r1" pendingKw c7db).snd
        = some pendingKw := by
  decide

/-- C7 (amended): `PUT /api/reports/:id` is admin-only (non-admins are
rejected by `authorize('admin')` with 403) and sets an existing report's
status to any of `pending`/`reviewed`/`ignored` regardless of its current
status, rejecting values outside the enum with 400; `cancelReport`
deletes the originating principal's own report entirely regardless of its
current status. -/
theorem claim_C7_amended :
    (∀ (user : User) (reportId status : String) (db : DB), user.role ≠ adminKw →
      updateReportStatusRoute user reportId status db
        = (Resp.err 403 (roleMsgPre ++ user.role ++ roleMsgPost), db))
    ∧ (∀ (user : User) (reportId status : String) (db : DB) (r : Report),
        user.role = adminKw →
        [pendingKw, reviewedKw, ignoredKw].contains status = true →
        db.reports.find? (fun x => x.id == reportId) = some r →
        (updateReportStatusRoute user reportId status db).fst
            = Resp.ok 200 { r with status := status }
          ∧ statusOfReport reportId (updateReportStatusRoute user reportId status db).snd
            = some status)
    ∧ (∀ (user : User) (reportId status : String) (db : DB),
        user.role = adminKw →
        [pendingKw, reviewedKw, ignoredKw].contains status = false →
        updateReportStatusRoute user reportId status db = (Resp.err 400 invalidStatusMsg, db))
    ∧ (∀ (user : User) (commentId : String) (db : DB) (r : Report),
        db.reports.find? (fun x => x.comment == commentId && x.user == user.id) = some r →
        (db.reports.map (fun x => x.id)).Nodup →
        (cancelReport user commentId db).fst = Resp.ok 200 ()
          ∧ (cancelReport user commentId db).snd.reports.countP
              (fun x => x.id == r.id) = 0) := by
  refine ⟨?_, ?_, ?_, ?_⟩
  · intro user reportId status db hrole
    unfold updateReportStatusRoute
    rw [if_pos (by simp [hrole])]
  · intro user reportId status db r hrole hstat hfind
    have hup : ∀ (a : Report), (a.id == reportId) = true →
        (({ a with status := status } : Report).id == reportId) = true := by
      intro a ha
      simpa using ha
    unfold updateReportStatusRoute updateReportStatus
    rw [if_neg (by simp [hrole]), hstat]
    rw [if_neg (by simp), hfind]
    refine ⟨rfl, ?_⟩
    unfold statusOfReport
    simp only
    rw [find?_updateFirst hup, hfind]
    rfl
  · intro user reportId status db hrole hstat
    unfold updateReportStatusRoute updateReportStatus
    rw [if_neg (by simp [hrole]), hstat]
    rfl
  · intro user commentId db r hfind hnodup
    unfold cancelReport
    rw [hfind]
    refine ⟨rfl, ?_⟩
    exact countP_eraseP_of_le_one (countP_key_le_one hnodup)

/-- Witness for C7 (amended): the admin sets the reviewed report `r1` to
`ignored`; the stored status becomes `ignored`. -/
theorem claim_C7_amended_witness :
    (updateReportStatusRoute c7admin "r1" ignoredKw c7db).fst
      = Resp.ok 200 { c7report with status := ignoredKw }
    ∧ statusOfReport "r1" (updateReportStatusRoute c7admin "r1" ignoredKw c7db).snd
      = some ignoredKw :=
  claim_C7_amended.2.1 c7admin "r1" ignoredKw c7db c7report rfl (by decide) (by decide)

/-! ## Claim C9 — notice creation and notification fan-out -/

/-- The teacher creating the notice in the C9 states. -/
def c9teacher : User :=
  { id := "t9", name := "Prof", email := "prof@example.com", role := "teacher",
    branch := "", department := "CSE", year := "", isApproved := true }

/-- An approved student squarely inside the notice's target cohort. -/
def c9student : User :=
  { id := "s9", name := "Casey", email := "casey@example.com", role := studentKw,
    branch := "CSE", department := "", year := "2nd", isApproved := true }

def c9db : DB :=
  { users := [c9teacher, c9student], videos := [], likes := [], videoViews := [],
    comments := [], reports := [], notes := [], notices := [], notifications := [] }

/-- A fully valid notice body targeted at the CSE/2nd cohort. -/
def c9body : NoticeBody :=
  { title := "Exam schedule", content := "Midterm on Friday", category := "Academic",
    branch := "CSE", year := "2nd", priority := "normal",
    expirationType := durationKw, expirationDate := none,
    expirationDuration := some "7 days" }

/-- C9: the claim states that creating a Notice delivers exactly one
`notice_posted` Notification to every approved student matching the
cohort.  False: `createNotice` performs no notification fan-out at all
(the `createNotifications` helper in authController.js is never invoked by
any handler), so the matching approved student `c9student` receives zero
notifications even though the notice is successfully created. -/
theorem claim_C9_counterexample :
    (c9student.role = studentKw ∧ c9student.isApproved = true ∧
      c9student.branch = c9body.branch ∧ c9student.year = c9body.year ∧
      c9student ∈ c9db.users)
    ∧ (createNotice c9teacher c9body "n1" c9db).snd.notices.length = 1
    ∧ (createNotice c9teacher c9body "n1" c9db).snd.notifications.countP
        (fun n => n.recipient == c9student.id && n.ntype == noticePostedKw) = 0
    ∧ (createNotice c9teacher c9body "n1" c9db).snd.notifications = [] := by
  decide

/-- C9 (amended): `createNotice` stores the Notice but creates no
Notification for anyone — the notifications collection is unchanged on
every path — and a cohort-wildcard notice (branch or year `"All"`) is not
even creatable: it is rejected with a 400 validation error before the
store is touched. -/
theorem claim_C9_amended :
    (∀ (user : User) (body : NoticeBody) (freshId : String) (db : DB),
      (createNotice user body freshId db).snd.notifications = db.notifications)
    ∧ (∀ (user : User) (body : NoticeBody) (freshId : String) (db : DB),
        noticeFieldsPresent body = true →
        (body.branch = allKw ∨ body.year = allKw) →
        createNotice user body freshId db = (Resp.err 400 selectSpecificMsg, db)) := by
  constructor
  · intro user body freshId db
    unfold createNotice
    split
    · rfl
    · split
      · rfl
      · split <;> rfl
  · intro user body freshId db hfields hall
    have hcond : (body.branch == allKw || body.year == allKw) = true := by
      rcases hall with h | h <;> simp [h]
    unfold createNotice
    rw [hfields, hcond]
    rfl

/-- Witness for C9 (amended): the valid CSE/2nd body with branch replaced
by the wildcard is rejected with the 400 "Please select specific branch
and year" error. -/
theorem claim_C9_amended_witness :
    createNotice c9teacher { c9body with branch := allKw } "n2" c9db
      = (Resp.err 400 selectSpecificMsg, c9db) :=
  claim_C9_amended.2 c9teacher { c9body with branch := allKw } "n2" c9db
    (by decide) (Or.inl rfl)

/-! ## Claim C3 — toggleLike strictly alternates -/

/-- C3: for a principal allowed through the access gate and an existing
video with no Like row for the pair, three successive `toggleLike` calls
return `liked:true`, `liked:false`, `liked:true`, leaving exactly one,
then zero, Like rows for the pair. -/
theorem claim_C3 (user : User) (videoId : String) (db : DB) (video : Video)
    (hvid : db.videos.find? (fun v => v.id == videoId) = some video)
    (hacc : (user.role == studentKw && !(toggleLikeStudentHasAccess video user)) = false)
    (h0 : db.likes.find? (likePred videoId user.id) = none) :
    (toggleLike user videoId db).fst = Resp.ok 200 true
    ∧ (toggleLike user videoId db).snd.likes.countP (likePred videoId user.id) = 1
    ∧ (toggleLike user videoId (toggleLike user videoId db).snd).fst = Resp.ok 200 false
    ∧ (toggleLike user videoId (toggleLike user videoId db).snd).snd.likes.countP
        (likePred videoId user.id) = 0
    ∧ (toggleLike user videoId
        (toggleLike user videoId (toggleLike user videoId db).snd).snd).fst
        = Resp.ok 200 true := by
  have hpnone : ∀ x ∈ db.likes, likePred videoId user.id x = false := by
    intro x hx
    have hnx := List.find?_eq_none.mp h0 x hx
    simpa using hnx
  have hrow : likePred videoId user.id { video := videoId, user := user.id } = true := by
    simp [likePred]
  have h1 : (toggleLike user videoId db).fst = Resp.ok 200 true
      ∧ (toggleLike user videoId db).snd.likes
          = db.likes ++ [{ video := videoId, user := user.id }]
      ∧ (toggleLike user videoId db).snd.videos = db.videos := by
    refine ⟨?_, ?_, ?_⟩ <;> simp [toggleLike, hvid, hacc, h0]
  obtain ⟨h1f, h1l, h1v⟩ := h1
  generalize hst1 : (toggleLike user videoId db).snd = st1 at h1l h1v ⊢
  have hvid1 : st1.videos.find? (fun v => v.id == videoId) = some video := by
    rw [h1v]; exact hvid
  have hfind1 : st1.likes.find? (likePred videoId user.id)
      = some { video := videoId, user := user.id } := by
    rw [h1l, List.find?_append, h0]
    simp [List.find?, hrow]
  have h2 : (toggleLike user videoId st1).fst = Resp.ok 200 false
      ∧ (toggleLike user videoId st1).snd.likes
          = st1.likes.eraseP (likePred videoId user.id)
      ∧ (toggleLike user videoId st1).snd.videos = st1.videos := by
    refine ⟨?_, ?_, ?_⟩ <;> simp [toggleLike, hvid1, hacc, hfind1]
  obtain ⟨h2f, h2l, h2v⟩ := h2
  generalize hst2 : (toggleLike user videoId st1).snd = st2 at h2l h2v ⊢
  have h2likes : st2.likes = db.likes := by
    rw [h2l, h1l, eraseP_append_left_neg hpnone]
    simp [List.eraseP_cons, hrow]
  have hvid2 : st2.videos.find? (fun v => v.id == videoId) = some video := by
    rw [h2v, h1v]; exact hvid
  have hfind2 : st2.likes.find? (likePred videoId user.id) = none := by
    rw [h2likes]; exact h0
  have h3f : (toggleLike user videoId st2).fst = Resp.ok 200 true := by
    simp [toggleLike, hvid2, hacc, hfind2]
  have hc0 : db.likes.countP (likePred videoId user.id) = 0 :=
    List.countP_eq_zero.mpr (fun a ha => by simp [hpnone a ha])
  refine ⟨h1f, ?_, h2f, ?_, h3f⟩
  · rw [h1l, List.countP_append, hc0]
    simp [hrow]
  · rw [h2likes, hc0]

/-- The teacher liking their own video in the C3 witness state (owner
likes: the access gate does not apply and no notification is sent). -/
def c3user : User :=
  { id := "t3", name := "Owner", email := "owner@example.com", role := "teacher",
    branch := "", department := "CSE", year := "", isApproved := true }

def c3vid : String := "v3"

def c3video : Video :=
  { id := c3vid, title := "Algo 1", description := "d", videoUrl := "url3",
    subject := "CS", topic := "Sorting", branch := "CSE", year := "3rd",
    teacher := "t3", specialAccess := [], views := 0 }

def c3db : DB :=
  { users := [c3user], videos := [c3video], likes := [], videoViews := [],
    comments := [], reports := [], notes := [], notices := [], notifications := [] }

theorem claim_C3_witness :
    (toggleLike c3user c3vid c3db).fst = Resp.ok 200 true
    ∧ (toggleLike c3user c3vid c3db).snd.likes.countP (likePred c3vid c3user.id) = 1
    ∧ (toggleLike c3user c3vid (toggleLike c3user c3vid c3db).snd).fst = Resp.ok 200 false
    ∧ (toggleLike c3user c3vid (toggleLike c3user c3vid c3db).snd).snd.likes.countP
        (likePred c3vid c3user.id) = 0
    ∧ (toggleLike c3user c3vid
        (toggleLike c3user c3vid (toggleLike c3user c3vid c3db).snd).snd).fst
        = Resp.ok 200 true :=
  claim_C3 c3user c3vid c3db c3video (by decide) (by decide) (by decide)

/-! ## Claim C6 — deleteComment cascades over a top-level comment's tree -/

/-- C6: for a top-level comment, `deleteComment` by the comment's author
or an admin succeeds and leaves zero rows in that comment's tree (neither
the comment itself nor any comment whose parent reference is it); a
caller who is neither the author nor an admin is rejected with 403 and
the state is unchanged.  The id-uniqueness hypothesis reflects the
uniqueness of Mongo `_id`s within a collection. -/
theorem claim_C6 (user : User) (commentId : String) (db : DB) (comment : Comment)
    (hfind : db.comments.find? (fun c => c.id == commentId) = some comment)
    (htop : comment.parentComment = none)
    (hnodup : (db.comments.map (fun c => c.id)).Nodup) :
    ((comment.user = user.id ∨ user.role = adminKw) →
      (deleteComment user commentId db).fst = Resp.ok 200 ()
      ∧ (deleteComment user commentId db).snd.comments.countP
          (fun c => c.id == commentId || c.parentComment == some commentId) = 0)
    ∧ ((comment.user ≠ user.id ∧ user.role ≠ adminKw) →
      deleteComment user commentId db = (Resp.err 403 notAuthorizedMsg, db)) := by
  have hcid : comment.id = commentId := by
    have := List.find?_some hfind
    simpa using this
  subst hcid
  constructor
  · intro hauth
    have hguard : (comment.user != user.id && user.role != adminKw) = false := by
      rcases hauth with h | h <;> simp [h]
    have hres : deleteComment user comment.id db
        = (Resp.ok 200 (),
           { db with comments :=
               ((db.comments.filter (fun c => !(c.parentComment == some comment.id))).eraseP
                 (fun c => c.id == comment.id)) }) := by
      unfold deleteComment
      simp [hfind, hguard, htop]
    rw [hres]
    refine ⟨rfl, ?_⟩
    have hle : (db.comments.filter
        (fun c => !(c.parentComment == some comment.id))).countP
        (fun c => c.id == comment.id) ≤ 1 :=
      le_trans (List.Sublist.countP_le _ (List.filter_sublist _))
        (countP_key_le_one hnodup)
    have hz := countP_eraseP_of_le_one hle
    rw [List.countP_eq_zero]
    intro a ha
    have hnotid := List.countP_eq_zero.mp hz a ha
    have hmemf : a ∈ db.comments.filter (fun c => !(c.parentComment == some comment.id)) :=
      (List.eraseP_sublist _).subset ha
    have hnotparent := (List.mem_filter.mp hmemf).2
    simp only [Bool.or_eq_true]
    rintro (hid | hpar)
    · exact hnotid hid
    · simp [hpar] at hnotparent
  · rintro ⟨h1, h2⟩
    have hguard : (comment.user != user.id && user.role != adminKw) = true := by
      simp [h1, h2]
    unfold deleteComment
    simp [hfind, hguard]

/-- The author acting in the C6 witness state. -/
def c6author : User :=
  { id := "s6", name := "Alex", email := "alex@example.com", role := studentKw,
    branch := "CSE", department := "", year := "2nd", isApproved := true }

def c6cid : String := "ct"

/-- A top-level comment with three replies, as in the spec's cascade
scenario. -/
def c6db : DB :=
  { users := [c6author], videos := [], likes := [], videoViews := [],
    comments :=
      [{ id := c6cid, content := "great lecture", user := "s6", video := "v6",
         parentComment := none },
       { id := "cr1", content := "+1", user := "s7", video := "v6",
         parentComment := some c6cid },
       { id := "cr2", content := "agreed", user := "s8", video := "v6",
         parentComment := some c6cid },
       { id := "cr3", content := "same", user := "s9", video := "v6",
         parentComment := some c6cid }],
    reports := [], notes := [], notices := [], notifications := [] }

/-- Witness for C6: the author deletes the top-level comment with 3
replies and 0 rows of the tree remain. -/
theorem claim_C6_witness :
    (deleteComment c6author c6cid c6db).fst = Resp.ok 200 ()
    ∧ (deleteComment c6author c6cid c6db).snd.comments.countP
        (fun c => c.id == c6cid || c.parentComment == some c6cid) = 0 :=
  (claim_C6 c6author c6cid c6db
      { id := c6cid, content := "great lecture", user := "s6", video := "v6",
        parentComment := none }
      (by decide) (by decide) (by decide)).1 (Or.inl rfl)

/-! ## Claim C4 — the view counter increments exactly on first views -/

theorem viewPred_viewUpdate {videoId userId : String} (inp : ViewInput) (now : Nat) :
    ∀ a, viewPred videoId userId a = true →
      viewPred videoId userId (viewUpdate inp now a) = true := by
  intro a ha
  simpa [viewPred, viewUpdate] using ha

theorem viewsOfList_incViews {videoId : String} {l : List Video}
    (h : l.any (fun v => v.id == videoId) = true) :
    viewsOfList videoId (incViews videoId l) = viewsOfList videoId l + 1 := by
  induction l with
  | nil => simp at h
  | cons x xs ih =>
    by_cases hx : (x.id == videoId) = true
    · have hstep : incViews videoId (x :: xs)
          = { x with views := x.views + 1 } :: incViews videoId xs := by
        simp only [incViews, List.map_cons]
        rw [if_pos hx]
      rw [hstep]
      have h1 : viewsOfList videoId ({ x with views := x.views + 1 } :: incViews videoId xs)
          = x.views + 1 := by
        simp [viewsOfList, hx]
      have h2 : viewsOfList videoId (x :: xs) = x.views := by
        simp [viewsOfList, hx]
      rw [h1, h2]
    · have hx' : (x.id == videoId) = false := by simpa using hx
      have hany : xs.any (fun v => v.id == videoId) = true := by
        simpa [hx'] using h
      have hstep : incViews videoId (x :: xs) = x :: incViews videoId xs := by
        simp only [incViews, List.map_cons]
        rw [if_neg (by simp [hx'])]
      rw [hstep]
      have h1 : viewsOfList videoId (x :: incViews videoId xs)
          = viewsOfList videoId (incViews videoId xs) := by
        simp [viewsOfList, hx']
      have h2 : viewsOfList videoId (x :: xs) = viewsOfList videoId xs := by
        simp [viewsOfList, hx']
      rw [h1, h2]
      exact ih hany

theorem any_id_incViews {videoId : String} {l : List Video} :
    (incViews videoId l).any (fun v => v.id == videoId)
      = l.any (fun v => v.id == videoId) := by
  induction l with
  | nil => rfl
  | cons x xs ih =>
    by_cases hx : (x.id == videoId) = true
    · have hstep : incViews videoId (x :: xs)
          = { x with views := x.views + 1 } :: incViews videoId xs := by
        simp only [incViews, List.map_cons]
        rw [if_pos hx]
      rw [hstep]
      simp [hx, ih]
    · have hx' : (x.id == videoId) = false := by simpa using hx
      have hstep : incViews videoId (x :: xs) = x :: incViews videoId xs := by
        simp only [incViews, List.map_cons]
        rw [if_neg (by simp [hx'])]
      rw [hstep]
      simp [hx', ih]

theorem recordView_create_state (user : User) (videoId : String) (inp : ViewInput)
    (now : Nat) (db : DB) (hne : videoId.isEmpty = false)
    (h0 : db.videoViews.find? (viewPred videoId user.id) = none) :
    (recordView user videoId inp now db).snd.videos = incViews videoId db.videos
    ∧ (recordView user videoId inp now db).snd.videoViews
        = db.videoViews ++
          [{ video := videoId, user := user.id, watchedAt := now,
             watchTime := jsOrNum inp.watchTime 0,
             completionPercentage := jsOrNum inp.completionPercentage 0,
             lastPosition := jsOrNum inp.lastPosition 0 }] := by
  constructor <;> simp [recordView, hne, h0]

theorem recordView_update_state (user : User) (videoId : String) (inp : ViewInput)
    (now : Nat) (db : DB) (view : ViewRow) (hne : videoId.isEmpty = false)
    (hf : db.videoViews.find? (viewPred videoId user.id) = some view) :
    (recordView user videoId inp now db).snd.videos = db.videos
    ∧ (recordView user videoId inp now db).snd.videoViews
        = updateFirst (viewPred videoId user.id) (viewUpdate inp now) db.videoViews := by
  constructor <;> simp [recordView, hne, hf]

/-- C4: `recordView` increments the video's counter by exactly one when no
view row exists for the (principal, content) pair; when a row exists it
leaves the videos collection untouched; N principals with pairwise
distinct ids and no prior rows, each calling once, raise the counter by
exactly N; and an immediate repeat call by the same principal (with any
inputs) leaves the videos collection — hence the counter — unchanged. -/
theorem claim_C4 (videoId : String) (inp : ViewInput) (now : Nat) :
    (∀ (user : User) (db : DB),
      videoId.isEmpty = false →
      db.videos.any (fun v => v.id == videoId) = true →
      db.videoViews.find? (viewPred videoId user.id) = none →
      viewsOf videoId (recordView user videoId inp now db).snd
        = viewsOf videoId db + 1)
    ∧ (∀ (user : User) (db : DB),
        (db.videoViews.find? (viewPred videoId user.id)).isSome = true →
        (recordView user videoId inp now db).snd.videos = db.videos)
    ∧ (∀ (users : List User) (db : DB),
        videoId.isEmpty = false →
        db.videos.any (fun v => v.id == videoId) = true →
        (∀ u ∈ users, db.videoViews.find? (viewPred videoId u.id) = none) →
        users.Pairwise (fun a b => a.id ≠ b.id) →
        viewsOf videoId
            (users.foldl (fun d u => (recordView u videoId inp now d).snd) db)
          = viewsOf videoId db + users.length)
    ∧ (∀ (user : User) (db : DB) (inp2 : ViewInput) (now2 : Nat),
        (recordView user videoId inp2 now2
            (recordView user videoId inp now db).snd).snd.videos
          = (recordView user videoId inp now db).snd.videos) := by
  refine ⟨?_, ?_, ?_, ?_⟩
  · intro user db hne hany h0
    have h1 := (recordView_create_state user videoId inp now db hne h0).1
    unfold viewsOf
    rw [h1]
    exact viewsOfList_incViews hany
  · intro user db hsome
    obtain ⟨view, hf⟩ := Option.isSome_iff_exists.mp hsome
    by_cases hne : videoId.isEmpty
    · simp [recordView, hne]
    · have hne' : videoId.isEmpty = false := by simpa using hne
      exact (recordView_update_state user videoId inp now db view hne' hf).1
  · intro users
    induction users with
    | nil =>
      intro db _ _ _ _
      simp
    | cons u us ih =>
      intro db hne hany hfresh hpair
      have h0 : db.videoViews.find? (viewPred videoId u.id) = none :=
        hfresh u (List.mem_cons_self u us)
      obtain ⟨hvid1, hviews1⟩ := recordView_create_state u videoId inp now db hne h0
      rw [List.pairwise_cons] at hpair
      have hany1 : (recordView u videoId inp now db).snd.videos.any
          (fun v => v.id == videoId) = true := by
        rw [hvid1, any_id_incViews]
        exact hany
      have hfresh1 : ∀ u' ∈ us,
          (recordView u videoId inp now db).snd.videoViews.find?
            (viewPred videoId u'.id) = none := by
        intro u' hu'
        rw [hviews1, List.find?_append, hfresh u' (List.mem_cons_of_mem u hu')]
        have hneq : u.id ≠ u'.id := hpair.1 u' hu'
        have hbeq : (u.id == u'.id) = false := by simp [hneq]
        simp [List.find?, viewPred, hbeq]
      have hrec := ih (recordView u videoId inp now db).snd hne hany1 hfresh1 hpair.2
      have hst1 : viewsOf videoId (recordView u videoId inp now db).snd
          = viewsOf videoId db + 1 := by
        unfold viewsOf
        rw [hvid1]
        exact viewsOfList_incViews hany
      have hfoldstep : (u :: us).foldl (fun d x => (recordView x videoId inp now d).snd) db
          = us.foldl (fun d x => (recordView x videoId inp now d).snd)
              (recordView u videoId inp now db).snd := rfl
      rw [hfoldstep, hrec, hst1]
      simp [Nat.add_assoc, Nat.add_comm]
  · intro user db inp2 now2
    by_cases hne : videoId.isEmpty
    · simp [recordView, hne]
    · have hne' : videoId.isEmpty = false := by simpa using hne
      have hsome : ((recordView user videoId inp now db).snd.videoViews.find?
          (viewPred videoId user.id)).isSome = true := by
        cases hf : db.videoViews.find? (viewPred videoId user.id) with
        | some view =>
          rw [(recordView_update_state user videoId inp now db view hne' hf).2,
            find?_updateFirst (viewPred_viewUpdate inp now), hf]
          rfl
        | none =>
          rw [(recordView_create_state user videoId inp now db hne' hf).2,
            List.find?_append, hf]
          simp [List.find?, viewPred]
      obtain ⟨view1, hview1⟩ := Option.isSome_iff_exists.mp hsome
      generalize hst : (recordView user videoId inp now db).snd = st1 at hview1 ⊢
      exact (recordView_update_state user videoId inp2 now2 st1 view1 hne' hview1).1

def c4videoId : String := "v4"

def c4video : Video :=
  { id := c4videoId, title := "DBMS 1", description := "d", videoUrl := "url4",
    subject := "CS", topic := "Indexes", branch := "CSE", year := "4th",
    teacher := "t4", specialAccess := [], views := 0 }

def c4u1 : User :=
  { id := "s41", name := "Uma", email := "uma@example.com", role := studentKw,
    branch := "CSE", department := "", year := "4th", isApproved := true }

def c4u2 : User :=
  { id := "s42", name := "Omar", email := "omar@example.com", role := studentKw,
    branch := "CSE", department := "", year := "4th", isApproved := true }

def c4db : DB :=
  { users := [c4u1, c4u2], videos := [c4video], likes := [], videoViews := [],
    comments := [], reports := [], notes := [], notices := [], notifications := [] }

/-- Witness for C4: two distinct principals each record a first view and
the counter rises by exactly 2. -/
theorem claim_C4_witness :
    viewsOf c4videoId
        ([c4u1, c4u2].foldl
          (fun d u => (recordView u c4videoId ⟨some 10, none, none⟩ 5 d).snd) c4db)
      = viewsOf c4videoId c4db + 2 :=
  (claim_C4 c4videoId ⟨some 10, none, none⟩ 5).2.2.1 [c4u1, c4u2] c4db
    (by decide) (by decide) (by decide) (by decide)

end StreamVibe
